import Mathlib

/-!
Shallow embedding of `aioprometheus/asgi/middleware.py` (class
`MetricsMiddleware`).  Python dict-based ASGI scopes become structures,
counters become lists recording each increment's label set in order, the
registry becomes the list of registered collector names, and exceptions
become `Except` / `Option` values.  The wrapped ASGI application (the
"next handler") is modelled by the observable behaviour of one invocation:
the sequence of messages it passes to `send` followed by either a normal
return or a raised exception (identified by a `Nat`).
-/

namespace AioPrometheus

/-- The parts of an ASGI scope dict read by the middleware, minus the
`app` entry: `scope["type"]`, `scope.get("method")` (absent for
websocket scopes), `scope.get("path", "")`, `scope.get("root_path", "")`. -/
structure ScopeCore where
  type : String
  method : Option String
  path : String
  root_path : String
deriving DecidableEq, Repr

/-- A Starlette/FastAPI route as the middleware uses it:
`route.matchesScope(scope)` returns a match enum value (0 none, 1 partial,
2 full) and `route.path` is the template string. -/
structure Route where
  matchesScope : ScopeCore → Nat
  path : String

/-- The Starlette application reference: only its `routes` list is read. -/
structure App where
  routes : List Route

/-- A full ASGI scope: the core entries plus `scope.get("app")`. -/
structure Scope where
  core : ScopeCore
  app : Option App

/-- A label set passed to `Counter.inc`: the middleware uses
`{"method": ..., "path": ...}` optionally extended with `"status_code"`. -/
structure Labels where
  method : Option String
  path : String
  status_code : Option String
deriving DecidableEq, Repr

/-- An ASGI message given to `send`: its `"type"` and, for
`http.response.start` messages, its `"status"`. -/
structure Msg where
  type : String
  status : Nat
deriving DecidableEq, Repr

/-- Observable behaviour of one invocation of the next ASGI callable:
the messages it sends, in order, and `some e` when it finally raises
exception `e` (identified by a number), `none` when it returns. -/
structure Handler where
  messages : List Msg
  raises : Option Nat
deriving DecidableEq, Repr

/-- Errors raised by the middleware itself (not by the wrapped handler):
the spec's `ConfigurationError` taxonomy — an invalid registry type at
construction, or a duplicate metric registration rejected by the
registry. -/
inductive MWError where
  | configurationError
deriving DecidableEq, Repr

/-- The mutable state of one `MetricsMiddleware` instance together with
the registry it registers into.  The registry is the list of collector
names registered so far; each counter is the ordered list of label sets
it has been incremented with. -/
structure MwState where
  registry : List String
  exclude_paths : List String
  use_template_urls : Bool
  group_status_codes : Bool
  metrics_created : Bool
  starlette_app : Option App
  requests_counter : List Labels
  responses_counter : List Labels
  exceptions_counter : List Labels
  status_codes_counter : List Labels

/-- Module-level `EXCLUDE_PATHS` tuple. -/
def EXCLUDE_PATHS : List String :=
  ["/metrics", "/metrics/", "/docs", "/openapi.json",
   "/docs/oauth2-redirect", "/redoc", "/favicon.ico"]

/-- The names of the four counters created by `create_metrics`, in
creation order. -/
def counterNames : List String :=
  ["requests_total_counter", "responses_total_counter",
   "exceptions_total_counter", "status_codes_counter"]

/-- `Counter(name, ..., registry=...)`: registering a collector whose
name is already present in the registry raises (the registry's
duplicate-registration rejection); otherwise the name is added. -/
def registerCounter (reg : List String) (name : String) : Except MWError (List String) :=
  if reg.contains name then Except.error MWError.configurationError
  else Except.ok (reg ++ [name])

/-- `MetricsMiddleware.create_metrics`: registers the four counters with
the registry in order and finally sets `metrics_created`. -/
def create_metrics (mw : MwState) : Except MWError MwState := do
  let reg0 ← registerCounter mw.registry "requests_total_counter"
  let reg1 ← registerCounter reg0 "responses_total_counter"
  let reg2 ← registerCounter reg1 "exceptions_total_counter"
  let reg3 ← registerCounter reg2 "status_codes_counter"
  Except.ok { mw with registry := reg3, metrics_created := true }

/-- Lines 134-135 of `__call__`:
`if not self.metrics_created: self.create_metrics()`.
`create_metrics` contains no `await`, so in the single-threaded
cooperative event loop this check-then-act runs as one atomic step. -/
def atomicGuard (mw : MwState) : Except MWError MwState :=
  if mw.metrics_created then Except.ok mw else create_metrics mw

/-- Lines 137-145 of `__call__`: capture `scope.get("app")` into
`self.starlette_app`, but only when no app reference is held yet and
the scope type is lifespan, http or websocket. -/
def captureApp (mw : MwState) (scope : Scope) : MwState :=
  if mw.starlette_app.isNone then
    if ["lifespan", "http", "websocket"].contains scope.core.type then
      { mw with starlette_app := scope.app }
    else mw
  else mw

/-- `MetricsMiddleware.get_full_or_template_path`: the literal path is
`root_path + path`; when template URLs are enabled and an app reference
is held, the first registered route whose `matches` value is 2
(`Match.FULL`) supplies its template path instead. -/
def get_full_or_template_path (mw : MwState) (scope : Scope) : String :=
  let root_path := scope.core.root_path
  let path := scope.core.path
  let full_path := root_path ++ path
  if mw.use_template_urls then
    match mw.starlette_app with
    | some app =>
      match app.routes.find? (fun route => route.matchesScope scope.core == 2) with
      | some route => route.path
      | none => full_path
    | none => full_path
  else
    full_path

/-- The body of `wrapped_send` applied to one outbound message: on an
`http.response.start` message, derive the status-code label
(`str(status)` literally, or its first character followed by `"xx"`
when `group_status_codes`), increment `status_codes_counter` with it and
`responses_counter` with the base labels; every message is then
forwarded unchanged. -/
def wrappedSendUpdate (labels : Labels) (mw : MwState) (response : Msg) : MwState :=
  if response.type == "http.response.start" then
    let status_code := Nat.repr response.status
    let bucket := if mw.group_status_codes then status_code.take 1 ++ "xx" else status_code
    { mw with
      status_codes_counter :=
        mw.status_codes_counter ++ [{ labels with status_code := some bucket }],
      responses_counter := mw.responses_counter ++ [labels] }
  else mw

/-- The observable outcome of one `__call__`: the final middleware
state, whether the next callable was awaited and with which scope,
whether it was given the instrumenting `wrapped_send` (or the original
`send`), the messages forwarded downstream, and the exception that
propagated out of `__call__` (if any). -/
structure CallResult where
  state : MwState
  handlerInvoked : Bool
  forwardedScope : Option Scope
  instrumentedSend : Bool
  sent : List Msg
  outcome : Option Nat

/-- `MetricsMiddleware.__call__` on one ASGI event, with the next
callable's behaviour given by `handler`.  Mirrors the source: metric
creation guard, app capture, lifespan pass-through, http/websocket
instrumentation with exclusion check, request count, wrapped send, and
the exception accounting + re-raise of the `except` block.  Events of
any other scope type fall off the end of the function. -/
def callMw (mw0 : MwState) (scope : Scope) (handler : Handler) :
    Except MWError CallResult := do
  let mwG ← atomicGuard mw0
  let mw := captureApp mwG scope
  if scope.core.type == "lifespan" then
    Except.ok { state := mw, handlerInvoked := true, forwardedScope := some scope,
                instrumentedSend := false, sent := handler.messages,
                outcome := handler.raises }
  else if scope.core.type == "http" || scope.core.type == "websocket" then
    let method := scope.core.method
    let path := get_full_or_template_path mw scope
    let labels : Labels := { method := method, path := path, status_code := none }
    if mw.exclude_paths.contains path then
      Except.ok { state := mw, handlerInvoked := true, forwardedScope := some scope,
                  instrumentedSend := false, sent := handler.messages,
                  outcome := handler.raises }
    else
      let mw1 := { mw with requests_counter := mw.requests_counter ++ [labels] }
      let mw2 := handler.messages.foldl (wrappedSendUpdate labels) mw1
      match handler.raises with
      | none =>
        Except.ok { state := mw2, handlerInvoked := true, forwardedScope := some scope,
                    instrumentedSend := true, sent := handler.messages, outcome := none }
      | some e =>
        let mw3 := { mw2 with exceptions_counter := mw2.exceptions_counter ++ [labels] }
        let scLabels := { labels with
          status_code := some (if mw3.group_status_codes then "5xx" else "500") }
        let mw4 := { mw3 with
          status_codes_counter := mw3.status_codes_counter ++ [scLabels] }
        let mw5 := { mw4 with responses_counter := mw4.responses_counter ++ [labels] }
        Except.ok { state := mw5, handlerInvoked := true, forwardedScope := some scope,
                    instrumentedSend := true, sent := handler.messages,
                    outcome := some e }
  else
    Except.ok { state := mw, handlerInvoked := false, forwardedScope := none,
                instrumentedSend := false, sent := [], outcome := none }

/-- The path label a given event will be classified under: the app
capture of this very event is taken into account (it happens before
path derivation in `__call__`). -/
def classifiedPath (mw : MwState) (scope : Scope) : String :=
  get_full_or_template_path (captureApp mw scope) scope

/-- The `registry` argument of `MetricsMiddleware.__init__` as a
dynamically typed Python value: `None`, an actual `Registry` (carrying
its currently registered collector names), or a value of some other
type. -/
inductive RegistryArg where
  | noneArg
  | registryInst (names : List String)
  | invalidArg (tyName : String)

/-- `MetricsMiddleware.__init__`: validates the registry argument
(raising when it is neither `None` nor a `Registry`), stores the
configuration, and defers all metric creation (`metrics_created`
starts false, counters untouched). -/
def initMw (registry : RegistryArg) (exclude_paths : List String)
    (use_template_urls : Bool) (group_status_codes : Bool) :
    Except MWError MwState :=
  match registry with
  | RegistryArg.invalidArg _ => Except.error MWError.configurationError
  | RegistryArg.noneArg =>
    Except.ok
      { registry := [],
        exclude_paths := if exclude_paths.isEmpty then [] else exclude_paths,
        use_template_urls := use_template_urls,
        group_status_codes := group_status_codes,
        metrics_created := false, starlette_app := none,
        requests_counter := [], responses_counter := [],
        exceptions_counter := [], status_codes_counter := [] }
  | RegistryArg.registryInst names =>
    Except.ok
      { registry := names,
        exclude_paths := if exclude_paths.isEmpty then [] else exclude_paths,
        use_template_urls := use_template_urls,
        group_status_codes := group_status_codes,
        metrics_created := false, starlette_app := none,
        requests_counter := [], responses_counter := [],
        exceptions_counter := [], status_codes_counter := [] }

/-- Number of `http.response.start` messages in a message list — the
number of times `wrapped_send` performs response accounting. -/
def respStartCount (messages : List Msg) : Nat :=
  (messages.filter (fun m => m.type == "http.response.start")).length

/-- `n` concurrent first requests all execute the metric-creation guard;
`create_metrics` contains no `await`, so each guard execution is a
single atomic step of the cooperative scheduler and any interleaving of
the `n` guards is some sequential order of them (all running the same
code).  `iterGuard n` is that sequence. -/
def iterGuard : Nat → MwState → Except MWError MwState
  | 0, mw => Except.ok mw
  | n + 1, mw => (atomicGuard mw).bind (iterGuard n)

/-- The primitive operations that appear in the metric-creation guard
(`__call__` lines 134-135 plus the body of `create_metrics`), as an
instruction alphabet that also names the synchronization operations a
lock-based guard would contain. -/
inductive MwInstr where
  | checkCreatedFlag
  | registerCounters
  | setCreatedFlag
  | lockAcquire
  | lockRelease
deriving DecidableEq, Repr

/-- The statement sequence of the metric-creation guard as written in
the source: read `self.metrics_created`, construct/register the four
counters, set `self.metrics_created = True`.  No other statement occurs
between entering `__call__` and completing the guard. -/
def guardInstrs : List MwInstr :=
  [MwInstr.checkCreatedFlag, MwInstr.registerCounters, MwInstr.setCreatedFlag]

/-- Convenience constructor for a middleware state with empty counters. -/
def mkMw (reg excl : List String) (ut gs created : Bool) (app : Option App) : MwState :=
  { registry := reg, exclude_paths := excl, use_template_urls := ut,
    group_status_codes := gs, metrics_created := created, starlette_app := app,
    requests_counter := [], responses_counter := [],
    exceptions_counter := [], status_codes_counter := [] }

/-- An http scope with method GET, empty root path and no app reference. -/
def httpScope (p : String) : Scope :=
  { core := { type := "http", method := some "GET", path := p, root_path := "" },
    app := none }

/-- A handler that completes one HTTP response with the given status. -/
def okHandler (status : Nat) : Handler :=
  { messages := [{ type := "http.response.start", status := status },
                 { type := "http.response.body", status := 0 }],
    raises := none }

/-- A handler that terminates without sending any message and without
raising (e.g. a websocket session that closes without an HTTP response). -/
def silentHandler : Handler := { messages := [], raises := none }

/-- A handler that raises exception `e` before sending anything. -/
def raisingHandler (e : Nat) : Handler := { messages := [], raises := some e }

/-- Project an `Except` middleware state, with a dummy fallback (used
only to name concrete values whose computation is known to succeed). -/
def stateOf (x : Except MWError MwState) : MwState :=
  x.toOption.getD (mkMw [] [] true false true none)

/-- Project an `Except` call result, with a dummy fallback. -/
def resultOf (x : Except MWError CallResult) : CallResult :=
  x.toOption.getD
    { state := mkMw [] [] true false true none, handlerInvoked := false,
      forwardedScope := none, instrumentedSend := false, sent := [], outcome := none }

/-- A concrete middleware state for exercising the unknown-scope branch. -/
def c10Mw : MwState := mkMw [] EXCLUDE_PATHS true false true none

/-- A concrete ASGI event whose scope type is none of lifespan, http,
websocket. -/
def c10Scope : Scope :=
  { core := { type := "lifespan.shutdown", method := none, path := "", root_path := "" },
    app := none }

/-- A route that only partially matches any scope (Match.PARTIAL = 1). -/
def c5PartialRoute : Route := { matchesScope := fun _ => 1, path := "/users/me" }

/-- A route that fully matches any scope (Match.FULL = 2). -/
def c5FullRoute : Route := { matchesScope := fun _ => 2, path := "/users/{user_id}" }

/-- An app registering the partial route before the full one. -/
def c5App : App := { routes := [c5PartialRoute, c5FullRoute] }

/-- Middleware holding the app reference, template URLs enabled. -/
def c5Mw : MwState := mkMw [] [] true false true (some c5App)

/-- Same middleware without a captured app reference. -/
def c5MwNoApp : MwState := mkMw [] [] true false true none

/-- A GET request scope for a literal user path. -/
def c5Scope : Scope :=
  { core := { type := "http", method := some "GET", path := "/users/42", root_path := "" },
    app := none }

/-- Middleware with the default exclusion list and metrics already
created. -/
def c4Mw : MwState := mkMw [] EXCLUDE_PATHS true false true none

/-- Middleware for the exception-accounting witness. -/
def c2Mw : MwState := mkMw [] EXCLUDE_PATHS true false true none

/-- Middleware with empty exclusion list, template URLs off, metrics
already created. -/
def c1Mw : MwState := mkMw [] [] false false true none

/-- A handler that emits exactly one `http.response.start` with the
given status and nothing else. -/
def oneResponse (status : Nat) : Handler :=
  { messages := [{ type := "http.response.start", status := status }], raises := none }

/-- Middleware with status-code grouping enabled. -/
def c3MwGrouped : MwState := mkMw [] [] false true true none

/-- Middleware with status-code grouping disabled. -/
def c3MwPlain : MwState := mkMw [] [] false false true none

/-- A freshly constructed middleware over an empty registry. -/
def c6Mw : MwState := stateOf (initMw (RegistryArg.registryInst []) [] true false)

/-- An application reference carried by a lifespan scope. -/
def c8App : App := { routes := [] }

/-- A different application reference already held by the middleware. -/
def c8OtherApp : App := { routes := [c5FullRoute] }

/-- A lifespan event whose scope carries an app reference. -/
def c8ScopeLifespan : Scope :=
  { core := { type := "lifespan", method := none, path := "", root_path := "" },
    app := some c8App }

/-- Middleware that has not yet captured an app reference. -/
def c8MwEmpty : MwState := mkMw [] [] true false true none

/-- Middleware already holding an app reference. -/
def c8MwHeld : MwState := mkMw [] [] true false true (some c8OtherApp)

/-! ## Helper lemmas about the embedded operations -/

set_option maxRecDepth 10000 in
theorem repr_take_one_eq_div100 :
    ∀ m, m < 600 → 100 ≤ m → (Nat.repr m).take 1 = Nat.repr (m / 100) := by decide

theorem registerCounter_ok {reg : List String} {name : String} {reg' : List String}
    (h : registerCounter reg name = Except.ok reg') : reg' = reg ++ [name] := by
  unfold registerCounter at h
  split at h
  · cases h
  · cases h
    rfl

theorem create_metrics_ok {mw mwC : MwState} (h : create_metrics mw = Except.ok mwC) :
    mwC = { mw with registry := mw.registry ++ counterNames, metrics_created := true } := by
  unfold create_metrics at h
  simp only [bind, Except.bind] at h
  rcases h1 : registerCounter mw.registry "requests_total_counter" with e | r1
  · simp [h1] at h
  simp only [h1] at h
  rcases h2 : registerCounter r1 "responses_total_counter" with e | r2
  · simp [h2] at h
  simp only [h2] at h
  rcases h3 : registerCounter r2 "exceptions_total_counter" with e | r3
  · simp [h3] at h
  simp only [h3] at h
  rcases h4 : registerCounter r3 "status_codes_counter" with e | r4
  · simp [h4] at h
  simp only [h4] at h
  simp only [Except.ok.injEq] at h
  subst h
  rw [registerCounter_ok h4, registerCounter_ok h3, registerCounter_ok h2,
      registerCounter_ok h1]
  simp [counterNames, List.append_assoc]

theorem atomicGuard_ok {mw g : MwState} (h : atomicGuard mw = Except.ok g) :
    g = { mw with
      registry := if mw.metrics_created then mw.registry else mw.registry ++ counterNames,
      metrics_created := true } := by
  unfold atomicGuard at h
  split at h
  · rename_i hc
    cases h
    simp only [if_pos hc]
    rw [← hc]
  · rename_i hc
    rw [create_metrics_ok h]
    simp [eq_false_of_ne_true hc]

theorem captureApp_eq (mw : MwState) (scope : Scope) :
    captureApp mw scope = { mw with starlette_app := scope.app } ∨
      captureApp mw scope = mw := by
  unfold captureApp
  split
  · split
    · exact Or.inl rfl
    · exact Or.inr rfl
  · exact Or.inr rfl

theorem captureApp_starlette (mw : MwState) (scope : Scope) :
    (captureApp mw scope).starlette_app =
      if mw.starlette_app.isNone &&
          ["lifespan", "http", "websocket"].contains scope.core.type
      then scope.app else mw.starlette_app := by
  unfold captureApp
  by_cases h1 : mw.starlette_app.isNone <;>
    by_cases h2 : (["lifespan", "http", "websocket"].contains scope.core.type) = true <;>
      simp_all

theorem gftp_congr {a b : MwState} (scope : Scope)
    (h1 : a.use_template_urls = b.use_template_urls)
    (h2 : a.starlette_app = b.starlette_app) :
    get_full_or_template_path a scope = get_full_or_template_path b scope := by
  unfold get_full_or_template_path
  rw [h1, h2]

theorem wsu_preserve (labels : Labels) (mw : MwState) (m : Msg) :
    (wrappedSendUpdate labels mw m).registry = mw.registry ∧
    (wrappedSendUpdate labels mw m).exclude_paths = mw.exclude_paths ∧
    (wrappedSendUpdate labels mw m).use_template_urls = mw.use_template_urls ∧
    (wrappedSendUpdate labels mw m).group_status_codes = mw.group_status_codes ∧
    (wrappedSendUpdate labels mw m).metrics_created = mw.metrics_created ∧
    (wrappedSendUpdate labels mw m).starlette_app = mw.starlette_app ∧
    (wrappedSendUpdate labels mw m).requests_counter = mw.requests_counter ∧
    (wrappedSendUpdate labels mw m).exceptions_counter = mw.exceptions_counter := by
  unfold wrappedSendUpdate
  split <;> exact ⟨rfl, rfl, rfl, rfl, rfl, rfl, rfl, rfl⟩

theorem foldl_wsu_preserve (labels : Labels) :
    ∀ (msgs : List Msg) (mw : MwState),
    (msgs.foldl (wrappedSendUpdate labels) mw).registry = mw.registry ∧
    (msgs.foldl (wrappedSendUpdate labels) mw).exclude_paths = mw.exclude_paths ∧
    (msgs.foldl (wrappedSendUpdate labels) mw).use_template_urls = mw.use_template_urls ∧
    (msgs.foldl (wrappedSendUpdate labels) mw).group_status_codes = mw.group_status_codes ∧
    (msgs.foldl (wrappedSendUpdate labels) mw).metrics_created = mw.metrics_created ∧
    (msgs.foldl (wrappedSendUpdate labels) mw).starlette_app = mw.starlette_app ∧
    (msgs.foldl (wrappedSendUpdate labels) mw).requests_counter = mw.requests_counter ∧
    (msgs.foldl (wrappedSendUpdate labels) mw).exceptions_counter = mw.exceptions_counter := by
  intro msgs
  induction msgs with
  | nil => exact fun mw => ⟨rfl, rfl, rfl, rfl, rfl, rfl, rfl, rfl⟩
  | cons m ms ih =>
    intro mw
    simp only [List.foldl_cons]
    obtain ⟨i1, i2, i3, i4, i5, i6, i7, i8⟩ := ih (wrappedSendUpdate labels mw m)
    obtain ⟨s1, s2, s3, s4, s5, s6, s7, s8⟩ := wsu_preserve labels mw m
    exact ⟨i1.trans s1, i2.trans s2, i3.trans s3, i4.trans s4,
           i5.trans s5, i6.trans s6, i7.trans s7, i8.trans s8⟩

theorem foldl_wsu_registry (labels : Labels) (msgs : List Msg) (mw : MwState) :
    (msgs.foldl (wrappedSendUpdate labels) mw).registry = mw.registry :=
  (foldl_wsu_preserve labels msgs mw).1

theorem foldl_wsu_gsc (labels : Labels) (msgs : List Msg) (mw : MwState) :
    (msgs.foldl (wrappedSendUpdate labels) mw).group_status_codes = mw.group_status_codes :=
  (foldl_wsu_preserve labels msgs mw).2.2.2.1

theorem foldl_wsu_created (labels : Labels) (msgs : List Msg) (mw : MwState) :
    (msgs.foldl (wrappedSendUpdate labels) mw).metrics_created = mw.metrics_created :=
  (foldl_wsu_preserve labels msgs mw).2.2.2.2.1

theorem foldl_wsu_sapp (labels : Labels) (msgs : List Msg) (mw : MwState) :
    (msgs.foldl (wrappedSendUpdate labels) mw).starlette_app = mw.starlette_app :=
  (foldl_wsu_preserve labels msgs mw).2.2.2.2.2.1

theorem foldl_wsu_requests (labels : Labels) (msgs : List Msg) (mw : MwState) :
    (msgs.foldl (wrappedSendUpdate labels) mw).requests_counter = mw.requests_counter :=
  (foldl_wsu_preserve labels msgs mw).2.2.2.2.2.2.1

theorem foldl_wsu_exceptions (labels : Labels) (msgs : List Msg) (mw : MwState) :
    (msgs.foldl (wrappedSendUpdate labels) mw).exceptions_counter = mw.exceptions_counter :=
  (foldl_wsu_preserve labels msgs mw).2.2.2.2.2.2.2

theorem foldl_wsu_responses (labels : Labels) :
    ∀ (msgs : List Msg) (mw : MwState),
    (msgs.foldl (wrappedSendUpdate labels) mw).responses_counter
      = mw.responses_counter ++ List.replicate (respStartCount msgs) labels := by
  intro msgs
  induction msgs with
  | nil => intro mw; simp [respStartCount]
  | cons m ms ih =>
    intro mw
    simp only [List.foldl_cons]
    rw [ih]
    by_cases hm : (m.type == "http.response.start") = true
    · have hstep : (wrappedSendUpdate labels mw m).responses_counter
          = mw.responses_counter ++ [labels] := by
        simp [wrappedSendUpdate, hm]
      rw [hstep]
      have hc : respStartCount (m :: ms) = respStartCount ms + 1 := by
        simp [respStartCount, List.filter_cons, hm, Nat.add_comm]
      rw [hc, List.replicate_succ]
      simp
    · have hstep : (wrappedSendUpdate labels mw m).responses_counter
          = mw.responses_counter := by
        simp [wrappedSendUpdate, hm]
      rw [hstep]
      have hc : respStartCount (m :: ms) = respStartCount ms := by
        simp [respStartCount, List.filter_cons, hm]
      rw [hc]

theorem foldl_wsu_status_len (labels : Labels) :
    ∀ (msgs : List Msg) (mw : MwState),
    (msgs.foldl (wrappedSendUpdate labels) mw).status_codes_counter.length
      = mw.status_codes_counter.length + respStartCount msgs := by
  intro msgs
  induction msgs with
  | nil => intro mw; simp [respStartCount]
  | cons m ms ih =>
    intro mw
    simp only [List.foldl_cons]
    rw [ih]
    by_cases hm : (m.type == "http.response.start") = true
    · have hstep : (wrappedSendUpdate labels mw m).status_codes_counter.length
          = mw.status_codes_counter.length + 1 := by
        simp [wrappedSendUpdate, hm]
      rw [hstep]
      have hc : respStartCount (m :: ms) = respStartCount ms + 1 := by
        simp [respStartCount, List.filter_cons, hm, Nat.add_comm]
      rw [hc]
      omega
    · have hstep : (wrappedSendUpdate labels mw m).status_codes_counter
          = mw.status_codes_counter := by
        simp [wrappedSendUpdate, hm]
      rw [hstep]
      have hc : respStartCount (m :: ms) = respStartCount ms := by
        simp [respStartCount, List.filter_cons, hm]
      rw [hc]

theorem guard_capture_facts {mw mwG : MwState} (scope : Scope)
    (hG : atomicGuard mw = Except.ok mwG) :
    get_full_or_template_path (captureApp mwG scope) scope = classifiedPath mw scope ∧
    (captureApp mwG scope).exclude_paths = mw.exclude_paths ∧
    (captureApp mwG scope).use_template_urls = mw.use_template_urls ∧
    (captureApp mwG scope).group_status_codes = mw.group_status_codes ∧
    (captureApp mwG scope).metrics_created = true ∧
    (captureApp mwG scope).registry = mwG.registry ∧
    (captureApp mwG scope).requests_counter = mw.requests_counter ∧
    (captureApp mwG scope).responses_counter = mw.responses_counter ∧
    (captureApp mwG scope).exceptions_counter = mw.exceptions_counter ∧
    (captureApp mwG scope).status_codes_counter = mw.status_codes_counter ∧
    (captureApp mwG scope).starlette_app = (captureApp mw scope).starlette_app := by
  have hGok := atomicGuard_ok hG
  subst hGok
  have hs : (captureApp
      { mw with
        registry := if mw.metrics_created then mw.registry else mw.registry ++ counterNames,
        metrics_created := true } scope).starlette_app
      = (captureApp mw scope).starlette_app := by
    rw [captureApp_starlette, captureApp_starlette]
  refine ⟨?_, ?_, ?_, ?_, ?_, ?_, ?_, ?_, ?_, ?_, hs⟩
  · apply gftp_congr
    · rcases captureApp_eq
          { mw with
            registry := if mw.metrics_created then mw.registry
              else mw.registry ++ counterNames,
            metrics_created := true } scope with hc | hc <;> rw [hc] <;>
        rcases captureApp_eq mw scope with hd | hd <;> rw [hd] <;> rfl
    · exact hs
  all_goals
    rcases captureApp_eq
        { mw with
          registry := if mw.metrics_created then mw.registry
            else mw.registry ++ counterNames,
          metrics_created := true } scope with hc | hc <;> rw [hc] <;> rfl

theorem callMw_registry_flag {mw : MwState} {scope : Scope} {handler : Handler}
    {r : CallResult} (h : callMw mw scope handler = Except.ok r) :
    r.state.metrics_created = true ∧
    r.state.registry
      = (if mw.metrics_created then mw.registry else mw.registry ++ counterNames) := by
  rcases hG : atomicGuard mw with err | mwG
  · simp [callMw, hG, bind, Except.bind] at h
  obtain ⟨hp, hexc, hut, hgs, hmc, hreg, hreq, hresp, hexcp, hstat, hsapp⟩ :=
    guard_capture_facts scope hG
  have hGreg : mwG.registry
      = (if mw.metrics_created then mw.registry else mw.registry ++ counterNames) := by
    rw [atomicGuard_ok hG]
  simp only [callMw, hG, bind, Except.bind] at h
  split at h
  · injection h with h
    subst h
    exact ⟨hmc, hreg.trans hGreg⟩
  · split at h
    · split at h
      · injection h with h
        subst h
        exact ⟨hmc, hreg.trans hGreg⟩
      · split at h
        · injection h with h
          subst h
          exact ⟨by simp [foldl_wsu_created, hmc], by simp [foldl_wsu_registry, hreg, hGreg]⟩
        · injection h with h
          subst h
          exact ⟨by simp [foldl_wsu_created, hmc], by simp [foldl_wsu_registry, hreg, hGreg]⟩
    · injection h with h
      subst h
      exact ⟨hmc, hreg.trans hGreg⟩

theorem callMw_starlette {mw : MwState} {scope : Scope} {handler : Handler}
    {r : CallResult} (h : callMw mw scope handler = Except.ok r) :
    r.state.starlette_app = (captureApp mw scope).starlette_app := by
  rcases hG : atomicGuard mw with err | mwG
  · simp [callMw, hG, bind, Except.bind] at h
  obtain ⟨hp, hexc, hut, hgs, hmc, hreg, hreq, hresp, hexcp, hstat, hsapp⟩ :=
    guard_capture_facts scope hG
  simp only [callMw, hG, bind, Except.bind] at h
  split at h
  · injection h with h
    subst h
    exact hsapp
  · split at h
    · split at h
      · injection h with h
        subst h
        exact hsapp
      · split at h
        · injection h with h
          subst h
          simp [foldl_wsu_sapp, hsapp]
        · injection h with h
          subst h
          simp [foldl_wsu_sapp, hsapp]
    · injection h with h
      subst h
      exact hsapp

theorem create_metrics_fresh {mw : MwState}
    (hfresh : ∀ name ∈ counterNames, name ∉ mw.registry) :
    create_metrics mw
      = Except.ok { mw with registry := mw.registry ++ counterNames,
                            metrics_created := true } := by
  have h1 : "requests_total_counter" ∉ mw.registry := hfresh _ (by decide)
  have h2 : "responses_total_counter" ∉ mw.registry := hfresh _ (by decide)
  have h3 : "exceptions_total_counter" ∉ mw.registry := hfresh _ (by decide)
  have h4 : "status_codes_counter" ∉ mw.registry := hfresh _ (by decide)
  simp [create_metrics, registerCounter, bind, Except.bind, h1, h2, h3, h4,
        counterNames, List.append_assoc]

theorem iterGuard_created (n : Nat) {mw : MwState} (hc : mw.metrics_created = true) :
    iterGuard n mw = Except.ok mw := by
  induction n with
  | zero => rfl
  | succ k ih =>
    simp only [iterGuard, atomicGuard, hc, if_true, Except.bind]
    exact ih

/-! ## Claim theorems -/

/-- C10: for every event whose scope type is none of "lifespan", "http",
or "websocket", `__call__` returns without invoking the next handler and
without incrementing any counter; the event is silently dropped rather
than passed through. -/
theorem c10_unknown_scope_dropped
    {mw : MwState} {scope : Scope} {handler : Handler} {r : CallResult}
    (h : callMw mw scope handler = Except.ok r)
    (h1 : scope.core.type ≠ "lifespan")
    (h2 : scope.core.type ≠ "http")
    (h3 : scope.core.type ≠ "websocket") :
    r.handlerInvoked = false ∧ r.forwardedScope = none ∧ r.sent = [] ∧
    r.outcome = none ∧
    r.state.requests_counter = mw.requests_counter ∧
    r.state.responses_counter = mw.responses_counter ∧
    r.state.exceptions_counter = mw.exceptions_counter ∧
    r.state.status_codes_counter = mw.status_codes_counter := by
  rcases hG : atomicGuard mw with e | mwG
  · simp [callMw, hG, bind, Except.bind] at h
  · simp [callMw, hG, bind, Except.bind, h1, h2, h3] at h
    subst h
    have hGok := atomicGuard_ok hG
    subst hGok
    rcases captureApp_eq
        { mw with
          registry := if mw.metrics_created then mw.registry
            else mw.registry ++ counterNames,
          metrics_created := true } scope with hc | hc <;>
      rw [hc] <;> exact ⟨rfl, rfl, rfl, rfl, rfl, rfl, rfl, rfl⟩

/-- C10 witness: a concrete scope of type "lifespan.shutdown" is
dropped without invoking the handler or touching any counter. -/
theorem c10_witness :
    (resultOf (callMw c10Mw c10Scope (okHandler 200))).handlerInvoked = false ∧
    (resultOf (callMw c10Mw c10Scope (okHandler 200))).forwardedScope = none ∧
    (resultOf (callMw c10Mw c10Scope (okHandler 200))).sent = [] ∧
    (resultOf (callMw c10Mw c10Scope (okHandler 200))).outcome = none ∧
    (resultOf (callMw c10Mw c10Scope (okHandler 200))).state.requests_counter
      = c10Mw.requests_counter ∧
    (resultOf (callMw c10Mw c10Scope (okHandler 200))).state.responses_counter
      = c10Mw.responses_counter ∧
    (resultOf (callMw c10Mw c10Scope (okHandler 200))).state.exceptions_counter
      = c10Mw.exceptions_counter ∧
    (resultOf (callMw c10Mw c10Scope (okHandler 200))).state.status_codes_counter
      = c10Mw.status_codes_counter :=
  @c10_unknown_scope_dropped c10Mw c10Scope (okHandler 200)
    (resultOf (callMw c10Mw c10Scope (okHandler 200)))
    rfl (by decide) (by decide) (by decide)

/-- C1 counterexample: a non-excluded http request whose handler
terminates without emitting `http.response.start` and without raising
(the websocket-style flow the source only special-cases for
`http.response.start`) records one `requests_counter` increment but
zero increments of `responses_counter` and `status_codes_counter`,
refuting "exactly one increment against each of responses_total and
status_codes_total regardless of whether the wrapped handler completes
a response or raises an exception". -/
theorem c1_counterexample :
    (httpScope "/stream").core.type = "http" ∧
    c1Mw.exclude_paths.contains (classifiedPath c1Mw (httpScope "/stream")) = false ∧
    (resultOf (callMw c1Mw (httpScope "/stream") silentHandler)).state.requests_counter.length = 1 ∧
    (resultOf (callMw c1Mw (httpScope "/stream") silentHandler)).state.responses_counter.length = 0 ∧
    (resultOf (callMw c1Mw (httpScope "/stream") silentHandler)).state.status_codes_counter.length = 0 ∧
    (resultOf (callMw c1Mw (httpScope "/stream") silentHandler)).outcome = none :=
  ⟨rfl, rfl, rfl, rfl, rfl, rfl⟩

/-- C1 (amended): for every non-excluded http/websocket request,
`requests_counter` is incremented exactly once with `{method, path}`;
`responses_counter` and `status_codes_counter` are each incremented
once per `http.response.start` message the handler emits, plus once
more if the handler raises — so exactly once when the handler either
completes exactly one response start without raising, or raises without
emitting one, and zero times when it terminates with neither. -/
theorem c1_amended_exactly_once
    {mw : MwState} {scope : Scope} {handler : Handler} {r : CallResult}
    (h : callMw mw scope handler = Except.ok r)
    (htype : scope.core.type = "http" ∨ scope.core.type = "websocket")
    (hex : classifiedPath mw scope ∉ mw.exclude_paths) :
    r.state.requests_counter = mw.requests_counter ++
      [{ method := scope.core.method, path := classifiedPath mw scope,
         status_code := none }] ∧
    r.state.responses_counter.length = mw.responses_counter.length
      + respStartCount handler.messages
      + (if handler.raises.isSome then 1 else 0) ∧
    r.state.status_codes_counter.length = mw.status_codes_counter.length
      + respStartCount handler.messages
      + (if handler.raises.isSome then 1 else 0) := by
  rcases hG : atomicGuard mw with err | mwG
  · simp [callMw, hG, bind, Except.bind] at h
  obtain ⟨hp, hexc, hut, hgs, hmc, hreg, hreq, hresp, hexcp, hstat, hsapp⟩ :=
    guard_capture_facts scope hG
  rcases hr : handler.raises with _ | e <;> rcases htype with ht | ht <;>
    ( simp only [callMw, hG, bind, Except.bind, ht] at h
      simp only [hp, hexc, hr] at h
      simp [hex] at h
      subst h
      refine ⟨?_, ?_, ?_⟩ <;>
        simp [foldl_wsu_requests, foldl_wsu_responses, foldl_wsu_status_len,
              hreq, hresp, hstat, hr, List.length_append, List.length_replicate] <;>
        try omega )

/-- C1 witness for the amended statement: a handler that completes one
response and does not raise yields exactly one increment of each of the
three counters. -/
theorem c1_witness :
    (resultOf (callMw c1Mw (httpScope "/a") (okHandler 200))).state.requests_counter
      = c1Mw.requests_counter ++
        [{ method := (httpScope "/a").core.method,
           path := classifiedPath c1Mw (httpScope "/a"), status_code := none }] ∧
    (resultOf (callMw c1Mw (httpScope "/a") (okHandler 200))).state.responses_counter.length
      = c1Mw.responses_counter.length + respStartCount (okHandler 200).messages
        + (if (okHandler 200).raises.isSome then 1 else 0) ∧
    (resultOf (callMw c1Mw (httpScope "/a") (okHandler 200))).state.status_codes_counter.length
      = c1Mw.status_codes_counter.length + respStartCount (okHandler 200).messages
        + (if (okHandler 200).raises.isSome then 1 else 0) :=
  @c1_amended_exactly_once c1Mw (httpScope "/a") (okHandler 200)
    (resultOf (callMw c1Mw (httpScope "/a") (okHandler 200)))
    rfl (Or.inl rfl) (by decide)

/-- C2: for every non-excluded request whose handler raises, the
middleware increments `exceptions_counter` with `{method, path}`,
increments `status_codes_counter` with the status_code label "5xx" when
grouping is enabled and "500" otherwise, increments `responses_counter`
with `{method, path}`, and the original exception propagates out of
`__call__` unchanged. -/
theorem c2_exception_accounting
    {mw : MwState} {scope : Scope} {handler : Handler} {e : Nat} {r : CallResult}
    (h : callMw mw scope handler = Except.ok r)
    (htype : scope.core.type = "http" ∨ scope.core.type = "websocket")
    (hraise : handler.raises = some e)
    (hex : classifiedPath mw scope ∉ mw.exclude_paths) :
    r.outcome = some e ∧
    r.state.exceptions_counter = mw.exceptions_counter ++
      [{ method := scope.core.method, path := classifiedPath mw scope,
         status_code := none }] ∧
    r.state.status_codes_counter.getLast? = some
      { method := scope.core.method, path := classifiedPath mw scope,
        status_code := some (if mw.group_status_codes then "5xx" else "500") } ∧
    r.state.responses_counter.getLast? = some
      { method := scope.core.method, path := classifiedPath mw scope,
        status_code := none } := by
  rcases hG : atomicGuard mw with err | mwG
  · simp [callMw, hG, bind, Except.bind] at h
  obtain ⟨hp, hexc, hut, hgs, hmc, hreg, hreq, hresp, hexcp, hstat, hsapp⟩ :=
    guard_capture_facts scope hG
  rcases htype with ht | ht <;>
    ( simp only [callMw, hG, bind, Except.bind, ht] at h
      simp only [hp, hexc, hraise] at h
      simp [hex, foldl_wsu_gsc, hgs] at h
      subst h
      refine ⟨rfl, ?_, ?_, ?_⟩
      · simp [foldl_wsu_exceptions, hexcp]
      · simp [List.getLast?_concat]
      · simp [List.getLast?_concat] )

/-- C2 witness: GET /orders/9 whose handler raises exception 7 records
the exception, a 500 status bucket and a response, and exception 7
still propagates. -/
theorem c2_witness :
    (resultOf (callMw c2Mw (httpScope "/orders/9") (raisingHandler 7))).outcome = some 7 ∧
    (resultOf (callMw c2Mw (httpScope "/orders/9") (raisingHandler 7))).state.exceptions_counter
      = c2Mw.exceptions_counter ++
        [{ method := (httpScope "/orders/9").core.method,
           path := classifiedPath c2Mw (httpScope "/orders/9"), status_code := none }] ∧
    (resultOf (callMw c2Mw (httpScope "/orders/9") (raisingHandler 7))).state.status_codes_counter.getLast?
      = some { method := (httpScope "/orders/9").core.method,
               path := classifiedPath c2Mw (httpScope "/orders/9"),
               status_code := some (if c2Mw.group_status_codes then "5xx" else "500") } ∧
    (resultOf (callMw c2Mw (httpScope "/orders/9") (raisingHandler 7))).state.responses_counter.getLast?
      = some { method := (httpScope "/orders/9").core.method,
               path := classifiedPath c2Mw (httpScope "/orders/9"), status_code := none } :=
  @c2_exception_accounting c2Mw (httpScope "/orders/9") (raisingHandler 7) 7
    (resultOf (callMw c2Mw (httpScope "/orders/9") (raisingHandler 7)))
    rfl (Or.inl rfl) rfl (by decide)

/-- C3: the status_code label recorded on a completed response is the
literal decimal string of the code when `group_status_codes` is false,
and when it is true the first digit of the code (the first character of
its decimal form, which for real HTTP codes 100-599 is the leading
digit `code / 100`) followed by "xx". -/
theorem c3_status_bucketing
    {mw : MwState} {scope : Scope} {r : CallResult} {status : Nat}
    (h : callMw mw scope (oneResponse status) = Except.ok r)
    (htype : scope.core.type = "http" ∨ scope.core.type = "websocket")
    (hex : classifiedPath mw scope ∉ mw.exclude_paths) :
    r.state.status_codes_counter = mw.status_codes_counter ++
      [{ method := scope.core.method, path := classifiedPath mw scope,
         status_code := some (if mw.group_status_codes
           then (Nat.repr status).take 1 ++ "xx" else Nat.repr status) }] ∧
    (100 ≤ status → status < 600 →
      (Nat.repr status).take 1 = Nat.repr (status / 100)) := by
  refine ⟨?_, fun h1 h2 => repr_take_one_eq_div100 status h2 h1⟩
  rcases hG : atomicGuard mw with err | mwG
  · simp [callMw, hG, bind, Except.bind] at h
  obtain ⟨hp, hexc, hut, hgs, hmc, hreg, hreq, hresp, hexcp, hstat, hsapp⟩ :=
    guard_capture_facts scope hG
  rcases htype with ht | ht <;>
    ( simp only [callMw, hG, bind, Except.bind, ht, oneResponse] at h
      simp only [hp, hexc] at h
      simp [hex, wrappedSendUpdate, hgs] at h
      subst h
      simp [hstat] )

/-- C3 witness: status 404 with grouping records "4xx" (the first digit
of 404 followed by "xx"), status 200 without grouping records "200". -/
theorem c3_witness :
    (resultOf (callMw c3MwGrouped (httpScope "/x") (oneResponse 404))).state.status_codes_counter
      = c3MwGrouped.status_codes_counter ++
        [{ method := (httpScope "/x").core.method,
           path := classifiedPath c3MwGrouped (httpScope "/x"),
           status_code := some (if c3MwGrouped.group_status_codes
             then (Nat.repr 404).take 1 ++ "xx" else Nat.repr 404) }] ∧
    (if c3MwGrouped.group_status_codes
      then (Nat.repr 404).take 1 ++ "xx" else Nat.repr 404) = "4xx" ∧
    (resultOf (callMw c3MwPlain (httpScope "/x") (oneResponse 200))).state.status_codes_counter
      = c3MwPlain.status_codes_counter ++
        [{ method := (httpScope "/x").core.method,
           path := classifiedPath c3MwPlain (httpScope "/x"),
           status_code := some (if c3MwPlain.group_status_codes
             then (Nat.repr 200).take 1 ++ "xx" else Nat.repr 200) }] ∧
    (if c3MwPlain.group_status_codes
      then (Nat.repr 200).take 1 ++ "xx" else Nat.repr 200) = "200" :=
  ⟨(@c3_status_bucketing c3MwGrouped (httpScope "/x")
      (resultOf (callMw c3MwGrouped (httpScope "/x") (oneResponse 404))) 404
      rfl (Or.inl rfl) (by decide)).1,
   by decide,
   (@c3_status_bucketing c3MwPlain (httpScope "/x")
      (resultOf (callMw c3MwPlain (httpScope "/x") (oneResponse 200))) 200
      rfl (Or.inl rfl) (by decide)).1,
   by decide⟩

/-- C4: for a request whose classified path is a member (exact string
match) of the configured exclusion list, no counter is incremented and
the request is still forwarded to the next handler unmodified — with
the original, uninstrumented `send` — so exclusion affects only
metrics, never request handling. -/
theorem c4_exclusion
    {mw : MwState} {scope : Scope} {handler : Handler} {r : CallResult}
    (h : callMw mw scope handler = Except.ok r)
    (htype : scope.core.type = "http" ∨ scope.core.type = "websocket")
    (hex : classifiedPath mw scope ∈ mw.exclude_paths) :
    r.handlerInvoked = true ∧ r.forwardedScope = some scope ∧
    r.instrumentedSend = false ∧ r.sent = handler.messages ∧
    r.outcome = handler.raises ∧
    r.state.requests_counter = mw.requests_counter ∧
    r.state.responses_counter = mw.responses_counter ∧
    r.state.exceptions_counter = mw.exceptions_counter ∧
    r.state.status_codes_counter = mw.status_codes_counter := by
  rcases hG : atomicGuard mw with e | mwG
  · simp [callMw, hG, bind, Except.bind] at h
  obtain ⟨hp, hexc, hut, hgs, hmc, hreg, hreq, hresp, hexcp, hstat, hsapp⟩ :=
    guard_capture_facts scope hG
  rcases htype with ht | ht <;>
    ( simp only [callMw, hG, bind, Except.bind, ht] at h
      simp only [hp, hexc] at h
      simp [hex] at h
      subst h
      exact ⟨rfl, rfl, rfl, rfl, rfl, hreq, hresp, hexcp, hstat⟩ )

/-- C4 witness: GET /metrics with the default exclusion list runs the
handler with the original send and changes no counter. -/
theorem c4_witness :
    (resultOf (callMw c4Mw (httpScope "/metrics") (okHandler 200))).handlerInvoked = true ∧
    (resultOf (callMw c4Mw (httpScope "/metrics") (okHandler 200))).forwardedScope
      = some (httpScope "/metrics") ∧
    (resultOf (callMw c4Mw (httpScope "/metrics") (okHandler 200))).instrumentedSend = false ∧
    (resultOf (callMw c4Mw (httpScope "/metrics") (okHandler 200))).sent
      = (okHandler 200).messages ∧
    (resultOf (callMw c4Mw (httpScope "/metrics") (okHandler 200))).outcome
      = (okHandler 200).raises ∧
    (resultOf (callMw c4Mw (httpScope "/metrics") (okHandler 200))).state.requests_counter
      = c4Mw.requests_counter ∧
    (resultOf (callMw c4Mw (httpScope "/metrics") (okHandler 200))).state.responses_counter
      = c4Mw.responses_counter ∧
    (resultOf (callMw c4Mw (httpScope "/metrics") (okHandler 200))).state.exceptions_counter
      = c4Mw.exceptions_counter ∧
    (resultOf (callMw c4Mw (httpScope "/metrics") (okHandler 200))).state.status_codes_counter
      = c4Mw.status_codes_counter :=
  @c4_exclusion c4Mw (httpScope "/metrics") (okHandler 200)
    (resultOf (callMw c4Mw (httpScope "/metrics") (okHandler 200)))
    rfl (Or.inl rfl) (by decide)

/-- C5: the path label equals `root_path ++ path`, except that when
`use_template_urls` is enabled and an app handle has been captured, the
first registered route whose match against the scope is a full match
(value 2) yields its template path; routes with only partial matches
never trigger substitution, and with no full match or no handle the
literal concatenated path is returned. -/
theorem c5_path_classification (mw : MwState) (scope : Scope) :
    (mw.use_template_urls = false →
      get_full_or_template_path mw scope = scope.core.root_path ++ scope.core.path) ∧
    (mw.starlette_app = none →
      get_full_or_template_path mw scope = scope.core.root_path ++ scope.core.path) ∧
    (∀ app, mw.starlette_app = some app →
      (∀ route ∈ app.routes, route.matchesScope scope.core ≠ 2) →
      get_full_or_template_path mw scope = scope.core.root_path ++ scope.core.path) ∧
    (∀ app route, mw.use_template_urls = true → mw.starlette_app = some app →
      app.routes.find? (fun rt => rt.matchesScope scope.core == 2) = some route →
      get_full_or_template_path mw scope = route.path) := by
  refine ⟨?_, ?_, ?_, ?_⟩
  · intro hu
    simp [get_full_or_template_path, hu]
  · intro ha
    unfold get_full_or_template_path
    rw [ha]
    split <;> rfl
  · intro app ha hnone
    have hfind : app.routes.find? (fun rt => rt.matchesScope scope.core == 2) = none := by
      rw [List.find?_eq_none]
      intro rt hrt
      simpa using hnone rt hrt
    simp [get_full_or_template_path, ha, hfind]
  · intro app route hu ha hfind
    simp [get_full_or_template_path, hu, ha, hfind]

/-- C5 witness: a request to /users/42 against an app whose route list
holds a partial-matching route followed by a fully matching route with
template /users/\x7buser_id} is classified under the template, and the
same request with no captured app keeps the literal path. -/
theorem c5_witness :
    get_full_or_template_path c5Mw c5Scope = c5FullRoute.path ∧
    get_full_or_template_path c5MwNoApp c5Scope
      = c5Scope.core.root_path ++ c5Scope.core.path :=
  ⟨(c5_path_classification c5Mw c5Scope).2.2.2 c5App c5FullRoute rfl rfl rfl,
   (c5_path_classification c5MwNoApp c5Scope).2.1 rfl⟩

/-- C6: the four counters are registered on the first call (and only
when `metrics_created` is still false), not at construction:
construction leaves the registry untouched with the flag false, so a
second construction against the same registry also succeeds; the first
call registers exactly the four counter names and sets the flag, and a
second call to the same instance changes the registry no further. -/
theorem c6_lazy_creation
    (regNames excl : List String) (ut gs : Bool) (scope scope2 : Scope)
    (handler handler2 : Handler) {mw : MwState} {r r2 : CallResult}
    (hinit : initMw (RegistryArg.registryInst regNames) excl ut gs = Except.ok mw)
    (hcall : callMw mw scope handler = Except.ok r)
    (hcall2 : callMw r.state scope2 handler2 = Except.ok r2) :
    mw.metrics_created = false ∧
    mw.registry = regNames ∧
    initMw (RegistryArg.registryInst mw.registry) excl ut gs = Except.ok mw ∧
    r.state.metrics_created = true ∧
    r.state.registry = regNames ++ counterNames ∧
    r2.state.registry = r.state.registry ∧
    r2.state.metrics_created = true := by
  simp only [initMw] at hinit
  injection hinit with hinit
  subst hinit
  obtain ⟨f1, f2⟩ := callMw_registry_flag hcall
  obtain ⟨g1, g2⟩ := callMw_registry_flag hcall2
  refine ⟨rfl, rfl, rfl, f1, ?_, ?_, g1⟩
  · rw [f2]
    simp
  · rw [g2, f1]
    simp

/-- C6 witness: a freshly constructed middleware over the empty registry
has registered nothing, re-construction succeeds, the first request
registers the four counters, and a second request registers nothing
more. -/
theorem c6_witness :
    c6Mw.metrics_created = false ∧
    c6Mw.registry = [] ∧
    initMw (RegistryArg.registryInst c6Mw.registry) [] true false = Except.ok c6Mw ∧
    (resultOf (callMw c6Mw (httpScope "/a") (okHandler 200))).state.metrics_created = true ∧
    (resultOf (callMw c6Mw (httpScope "/a") (okHandler 200))).state.registry
      = [] ++ counterNames ∧
    (resultOf (callMw (resultOf (callMw c6Mw (httpScope "/a") (okHandler 200))).state
        (httpScope "/a") (okHandler 200))).state.registry
      = (resultOf (callMw c6Mw (httpScope "/a") (okHandler 200))).state.registry ∧
    (resultOf (callMw (resultOf (callMw c6Mw (httpScope "/a") (okHandler 200))).state
        (httpScope "/a") (okHandler 200))).state.metrics_created = true :=
  @c6_lazy_creation [] [] true false (httpScope "/a") (httpScope "/a")
    (okHandler 200) (okHandler 200)
    c6Mw (resultOf (callMw c6Mw (httpScope "/a") (okHandler 200)))
    (resultOf (callMw (resultOf (callMw c6Mw (httpScope "/a") (okHandler 200))).state
        (httpScope "/a") (okHandler 200)))
    rfl rfl rfl

/-- C8: the app reference is captured from the scope only while none is
held (from a lifespan event or from the first http/websocket event
carrying one); once held it is never overwritten, and permanent absence
falls back to literal path classification. -/
theorem c8_app_capture
    {mw : MwState} {scope : Scope} {handler : Handler} {r : CallResult}
    (h : callMw mw scope handler = Except.ok r) :
    (∀ a, mw.starlette_app = some a → r.state.starlette_app = some a) ∧
    (mw.starlette_app = none →
      scope.core.type ∈ (["lifespan", "http", "websocket"] : List String) →
      r.state.starlette_app = scope.app) ∧
    (mw.starlette_app = none →
      scope.core.type ∉ (["lifespan", "http", "websocket"] : List String) →
      r.state.starlette_app = none) ∧
    (mw.starlette_app = none → scope.app = none →
      classifiedPath mw scope = scope.core.root_path ++ scope.core.path) := by
  have hst := callMw_starlette h
  refine ⟨?_, ?_, ?_, ?_⟩
  · intro a ha
    rw [hst, captureApp_starlette, ha]
    simp
  · intro ha hmem
    rw [hst, captureApp_starlette, ha]
    simp [hmem]
  · intro ha hmem
    rw [hst, captureApp_starlette, ha]
    simp [hmem]
  · intro ha happ
    have hc : (captureApp mw scope).starlette_app = none := by
      rw [captureApp_starlette, ha, happ]
      split <;> rfl
    unfold classifiedPath get_full_or_template_path
    rw [hc]
    split <;> rfl

/-- C8 witness: a lifespan event's app reference is captured when none
is held, and an already-held reference is not overwritten by a later
event carrying a different one. -/
theorem c8_witness :
    (resultOf (callMw c8MwEmpty c8ScopeLifespan silentHandler)).state.starlette_app
      = c8ScopeLifespan.app ∧
    (resultOf (callMw c8MwHeld c8ScopeLifespan silentHandler)).state.starlette_app
      = some c8OtherApp :=
  ⟨(@c8_app_capture c8MwEmpty c8ScopeLifespan silentHandler
      (resultOf (callMw c8MwEmpty c8ScopeLifespan silentHandler)) rfl).2.1
      rfl (by decide),
   (@c8_app_capture c8MwHeld c8ScopeLifespan silentHandler
      (resultOf (callMw c8MwHeld c8ScopeLifespan silentHandler)) rfl).1
      c8OtherApp rfl⟩

/-- C9 counterexample: the source's metric-creation guard (`__call__`
lines 134-135 with `create_metrics`) contains no lock acquisition or
release — no synchronization primitive appears in it, refuting "the
metric-creation guard uses a synchronization primitive (lock or atomic
check-and-set)". -/
theorem c9_no_lock :
    guardInstrs.contains MwInstr.lockAcquire = false ∧
    guardInstrs.contains MwInstr.lockRelease = false := by
  decide

/-- C9 (amended): the guard uses no synchronization primitive; because
`create_metrics` contains no `await`, the check-then-act guard runs as
one atomic step of the cooperative single-threaded scheduler, so any
interleaving of the guards of `n + 1` concurrent first requests is a
sequence of `n + 1` guard executions, and the four counters are
registered with the registry exactly once. -/
theorem c9_amended_single_registration
    (n : Nat) {mw : MwState}
    (hflag : mw.metrics_created = false)
    (hfresh : ∀ name ∈ counterNames, name ∉ mw.registry) :
    iterGuard (n + 1) mw
      = Except.ok { mw with registry := mw.registry ++ counterNames,
                            metrics_created := true } := by
  have hcm := create_metrics_fresh hfresh
  simp only [iterGuard, atomicGuard, hflag, Bool.false_eq_true, if_false, hcm,
             Except.bind]
  exact iterGuard_created n rfl

/-- C9 witness: six concurrent first requests to a fresh middleware over
an empty registry register the four counters exactly once. -/
theorem c9_witness :
    iterGuard 6 (mkMw [] [] true false false none)
      = Except.ok { mkMw [] [] true false false none with
          registry := (mkMw [] [] true false false none).registry ++ counterNames,
          metrics_created := true } :=
  @c9_amended_single_registration 5 (mkMw [] [] true false false none)
    rfl (by decide)

/-- C7: constructing the middleware with a registry argument that is
neither `None` nor a `Registry` instance fails immediately with a
`ConfigurationError`. -/
theorem c7_invalid_registry_rejected
    (tyName : String) (exclude_paths : List String)
    (use_template_urls group_status_codes : Bool) :
    initMw (RegistryArg.invalidArg tyName) exclude_paths
        use_template_urls group_status_codes
      = Except.error MWError.configurationError := rfl

end AioPrometheus
